import Mathlib

/-!
Shallow embedding of the signaling-server repository (two source files: the
mentoria access-control variant and the open-join variant of `server.js`).

JavaScript objects used as string-keyed dictionaries are embedded as
association lists `List (String × β)` in insertion order: assignment
`obj[k] = v` is `setk` (replaces in place if the key exists, otherwise
appends, matching JS key ordering), `delete obj[k]` is `delk`, and property
lookup is `lookupk`.  Nullable / possibly-undefined fields (`socket.userId`,
`room.mentorId`, `currentRoomId`) are `Option String`; event-payload fields
are plain `String` with `""` standing for a missing field, so the JS
falsiness guard `!data.x` is exactly `x = ""`.  Each socket.io handler is a
pure function `state → args → state × List Emit`, where `Emit` records the
outbound `socket.emit` / `io.to(...).emit` calls in program order.
-/

def lookupk {β : Type} : List (String × β) → String → Option β
  | [], _ => none
  | (k', v) :: rest, k => if k' = k then some v else lookupk rest k

def setk {β : Type} : List (String × β) → String → β → List (String × β)
  | [], k, v => [(k, v)]
  | (k', v') :: rest, k, v =>
    if k' = k then (k, v) :: rest else (k', v') :: setk rest k v

def delk {β : Type} : List (String × β) → String → List (String × β)
  | [], _ => []
  | (k', v') :: rest, k =>
    if k' = k then delk rest k else (k', v') :: delk rest k

theorem lookupk_setk_self {β : Type} (l : List (String × β)) (k : String) (v : β) :
    lookupk (setk l k v) k = some v := by
  induction l with
  | nil => simp [setk, lookupk]
  | cons hd tl ih =>
    by_cases h : hd.1 = k
    · simp [setk, h, lookupk]
    · simp [setk, h, lookupk, ih]

theorem lookupk_setk_ne {β : Type} (l : List (String × β)) (k k' : String) (v : β)
    (h : k' ≠ k) : lookupk (setk l k v) k' = lookupk l k' := by
  have h0 : ¬ (k = k') := fun e => h e.symm
  induction l with
  | nil => simp [setk, lookupk, h0]
  | cons hd tl ih =>
    by_cases hk : hd.1 = k
    · subst hk
      have hk' : ¬ (hd.1 = k') := fun e => h e.symm
      simp [setk, lookupk, hk']
    · simp [setk, hk, lookupk, ih]

theorem lookupk_delk_self {β : Type} (l : List (String × β)) (k : String) :
    lookupk (delk l k) k = none := by
  induction l with
  | nil => simp [delk, lookupk]
  | cons hd tl ih =>
    by_cases h : hd.1 = k
    · simp [delk, h, ih]
    · simp [delk, h, lookupk, ih]

theorem lookupk_delk_ne {β : Type} (l : List (String × β)) (k k' : String)
    (h : k' ≠ k) : lookupk (delk l k) k' = lookupk l k' := by
  induction l with
  | nil => simp [delk]
  | cons hd tl ih =>
    by_cases hk : hd.1 = k
    · subst hk
      have hk' : ¬ (hd.1 = k') := fun e => h e.symm
      simp [delk, lookupk, hk', ih]
    · simp [delk, hk, lookupk, ih]

theorem lookupk_mem {β : Type} (l : List (String × β)) (k : String) (v : β)
    (h : lookupk l k = some v) : (k, v) ∈ l := by
  induction l with
  | nil => simp [lookupk] at h
  | cons hd tl ih =>
    cases hd with
    | mk a b =>
      by_cases hk : a = k
      · subst hk
        simp [lookupk] at h
        subst h
        exact List.mem_cons_self _ _
      · simp [lookupk, hk] at h
        exact List.mem_cons_of_mem _ (ih h)

theorem lookupk_setk_isSome {β : Type} (l : List (String × β)) (k : String) (v : β)
    (hk : (lookupk l k).isSome) (r : String) :
    (lookupk (setk l k v) r).isSome = (lookupk l r).isSome := by
  by_cases h : r = k
  · subst h
    simp [lookupk_setk_self, hk]
  · simp [lookupk_setk_ne l k r v h]

/-- The outbound messages a handler produces, in emission order.  Each
constructor is one `socket.emit` / `io.to(target).emit` / `io.emit` site of
the source; broadcasts carry the room id they are scoped to. -/
inductive Emit where
  | errorMessage (toSock msg : String)
  | registrationSuccessful (toSock userId : String)
  | registrationFailed (toSock : String)
  | presenceUpdate (data : List (String × String × Bool))
  | accessStatus (toSock status : String)
  | joinRequestToMentor (toSock requestingUserId requestingUserDisplayName roomId : String)
  | invitationReceived (toSock roomId inviterId inviterName : String)
  | participantsUpdate (roomId : String) (details : List (String × String))
  | initiateWebrtcWithPeer (toSock peerUserId : String)
  | webrtcOffer (toSock : String) (senderUserId : Option String) (sdp roomId : String)
  | webrtcAnswer (toSock : String) (senderUserId : Option String) (sdp roomId : String)
  | webrtcIceCandidate (toSock : String) (senderUserId : Option String) (candidate roomId : String)
  | joinedRoomSuccessfully (toSock roomId roomName : String)
      (participants : List (String × String × String))
  | participantJoined (roomId userId displayName socketId : String)
  | leftRoomSuccessfully (toSock roomId : String)
  | participantLeft (roomId userId : String) (displayName : Option String)
deriving DecidableEq

/-- JS strict equality `a === b` restricted to operands that are each either
a string or null/undefined: true exactly when both are strings and equal
(the source only compares `room.mentorId` (string or null) against
`socket.userId` (string or undefined), and null === undefined is false). -/
def sameUser : Option String → Option String → Bool
  | some a, some b => a == b
  | _, _ => false

namespace Mentoria

structure OnlineUser where
  socketId : String
  displayName : String
  isMentor : Bool
deriving DecidableEq

structure Participant where
  socketId : String
  displayName : String
  status : String
deriving DecidableEq

structure PendingRequest where
  socketId : String
  displayName : String
deriving DecidableEq

/-- One mentoria room; the registry key doubles as the `id` field (they are
always equal in the source: only the pre-provisioned room exists). -/
structure MRoom where
  name : String
  mentorId : Option String
  participants : List (String × Participant)
  pendingRequests : List (String × PendingRequest)
  invitedUsers : List (String × String)
deriving DecidableEq

/-- The per-socket fields the source stashes on the connection object. -/
structure Sock where
  userId : Option String
  isMentor : Bool
  currentRoomId : Option String
deriving DecidableEq

structure MState where
  onlineUsers : List (String × OnlineUser)
  mentoriaRooms : List (String × MRoom)
  sockets : List (String × Sock)
deriving DecidableEq

def defaultSock : Sock := { userId := none, isMentor := false, currentRoomId := none }

def getSock (st : MState) (sid : String) : Sock :=
  (lookupk st.sockets sid).getD defaultSock

def defaultMentoriaRoomId : String := "default_mentoria_room"

def initialMState : MState :=
  { onlineUsers := []
    mentoriaRooms :=
      [(defaultMentoriaRoomId,
        { name := "Sala de Mentoria Principal"
          mentorId := none
          participants := []
          pendingRequests := []
          invitedUsers := [] })]
    sockets := [] }

/-- A new transport connection: socket.io registers the socket with no
application fields set yet. -/
def connectM (st : MState) (sid : String) : MState :=
  { st with sockets := setk st.sockets sid defaultSock }

def presenceSnapshot (onlineUsers : List (String × OnlineUser)) :
    List (String × String × Bool) :=
  onlineUsers.map (fun p => (p.1, p.2.displayName, p.2.isMentor))

def register_user (st : MState) (sid uid dn : String) (isMentor : Bool) :
    MState × List Emit :=
  if uid = "" ∨ dn = "" then
    (st, [Emit.registrationFailed sid])
  else
    let onlineUsers' :=
      setk st.onlineUsers uid { socketId := sid, displayName := dn, isMentor := isMentor }
    let sock := getSock st sid
    let sockets' := setk st.sockets sid { sock with userId := some uid, isMentor := isMentor }
    let mentoriaRooms' :=
      if isMentor then
        match lookupk st.mentoriaRooms defaultMentoriaRoomId with
        | some r =>
          if r.mentorId = none then
            setk st.mentoriaRooms defaultMentoriaRoomId { r with mentorId := some uid }
          else st.mentoriaRooms
        | none => st.mentoriaRooms
      else st.mentoriaRooms
    ({ onlineUsers := onlineUsers', mentoriaRooms := mentoriaRooms', sockets := sockets' },
     [Emit.registrationSuccessful sid uid,
      Emit.presenceUpdate (presenceSnapshot onlineUsers')])

def joinedDetails (ps : List (String × Participant)) : List (String × String) :=
  (ps.filter (fun p => p.2.status == "joined")).map (fun p => (p.1, p.2.displayName))

def addUserToMentoriaRoom (st : MState) (sid roomId dn joinStatus : String) :
    MState × List Emit :=
  match lookupk st.mentoriaRooms roomId with
  | none => (st, [])
  | some room =>
    let sock := getSock st sid
    match sock.userId with
    | none => (st, [])
    | some uid =>
      let already :=
        match lookupk room.participants uid with
        | some p => p.status == "joined"
        | none => false
      if already then (st, [])
      else
        let participants' :=
          setk room.participants uid { socketId := sid, displayName := dn, status := "joined" }
        let room' := { room with participants := participants' }
        ({ st with
            mentoriaRooms := setk st.mentoriaRooms roomId room'
            sockets := setk st.sockets sid { sock with currentRoomId := some roomId } },
         [Emit.accessStatus sid joinStatus,
          Emit.participantsUpdate roomId (joinedDetails participants')])

/-- The `mentoria_request_join` handler.  Note the source rejects only
callers already present in `participants`; a pending or invited user passes
the guard. -/
def mentoria_request_join (st : MState) (sid roomId : String) : MState × List Emit :=
  let sock := getSock st sid
  match sock.userId with
  | none => (st, [])
  | some uid =>
    if roomId = "" then (st, [])
    else
      match lookupk st.onlineUsers uid with
      | none => (st, [])
      | some ou =>
        match lookupk st.mentoriaRooms roomId with
        | none => (st, [Emit.errorMessage sid "Sala de mentoria não encontrada."])
        | some room =>
          if (lookupk room.participants uid).isSome then
            (st, [Emit.errorMessage sid "Você já está na sala ou sua solicitação está pendente."])
          else
            let room' :=
              { room with
                  pendingRequests :=
                    setk room.pendingRequests uid
                      { socketId := sid, displayName := ou.displayName } }
            let mentorEmits :=
              match room.mentorId with
              | some mid =>
                match lookupk st.onlineUsers mid with
                | some mou => [Emit.joinRequestToMentor mou.socketId uid ou.displayName roomId]
                | none => []
              | none => []
            ({ st with mentoriaRooms := setk st.mentoriaRooms roomId room' },
             Emit.accessStatus sid "pending_approval" :: mentorEmits)

def mentoria_invite_user (st : MState) (sid roomId targetUserId : String) :
    MState × List Emit :=
  let sock := getSock st sid
  if sock.isMentor = false ∨ roomId = "" ∨ targetUserId = "" ∨
      lookupk st.onlineUsers targetUserId = none then
    (st, [Emit.errorMessage sid "Ação não permitida ou usuário não encontrado."])
  else
    match lookupk st.mentoriaRooms roomId with
    | none => (st, [Emit.errorMessage sid "Você não é o mentor desta sala."])
    | some room =>
      if sameUser room.mentorId sock.userId = false then
        (st, [Emit.errorMessage sid "Você não é o mentor desta sala."])
      else
        let inviterId := sock.userId.getD ""
        let room' := { room with invitedUsers := setk room.invitedUsers targetUserId inviterId }
        let targetSocketId :=
          ((lookupk st.onlineUsers targetUserId).map (fun o => o.socketId)).getD ""
        let inviterName :=
          ((lookupk st.onlineUsers inviterId).map (fun o => o.displayName)).getD ""
        ({ st with mentoriaRooms := setk st.mentoriaRooms roomId room' },
         [Emit.invitationReceived targetSocketId roomId inviterId inviterName])

def mentoria_accept_invitation (st : MState) (sid roomId inviterId : String) :
    MState × List Emit :=
  let sock := getSock st sid
  match sock.userId with
  | none => (st, [])
  | some uid =>
    if roomId = "" then (st, [])
    else
      match lookupk st.mentoriaRooms roomId with
      | none => (st, [Emit.errorMessage sid "Convite inválido ou expirado."])
      | some room =>
        match lookupk room.invitedUsers uid with
        | none => (st, [Emit.errorMessage sid "Convite inválido ou expirado."])
        | some inv =>
          if inv ≠ inviterId then
            (st, [Emit.errorMessage sid "Convite inválido ou expirado."])
          else
            let room' := { room with invitedUsers := delk room.invitedUsers uid }
            let st1 := { st with mentoriaRooms := setk st.mentoriaRooms roomId room' }
            let dn := ((lookupk st.onlineUsers uid).map (fun o => o.displayName)).getD ""
            addUserToMentoriaRoom st1 sid roomId dn "invited_joined"

def mentoria_approve_request (st : MState) (sid roomId targetUserId : String) :
    MState × List Emit :=
  let sock := getSock st sid
  if sock.isMentor = false ∨ roomId = "" ∨ targetUserId = "" then
    (st, [Emit.errorMessage sid "Ação não permitida."])
  else
    match lookupk st.mentoriaRooms roomId with
    | none => (st, [Emit.errorMessage sid "Solicitação não encontrada ou você não é o mentor."])
    | some room =>
      if sameUser room.mentorId sock.userId = false then
        (st, [Emit.errorMessage sid "Solicitação não encontrada ou você não é o mentor."])
      else
        match lookupk room.pendingRequests targetUserId with
        | none =>
          (st, [Emit.errorMessage sid "Solicitação não encontrada ou você não é o mentor."])
        | some pr =>
          let room' :=
            { room with pendingRequests := delk room.pendingRequests targetUserId }
          let st1 := { st with mentoriaRooms := setk st.mentoriaRooms roomId room' }
          match lookupk st.sockets pr.socketId with
          | some _ => addUserToMentoriaRoom st1 pr.socketId roomId pr.displayName "approved"
          | none => (st1, [])

def mentoria_deny_request (st : MState) (sid roomId targetUserId : String) :
    MState × List Emit :=
  let sock := getSock st sid
  if sock.isMentor = false ∨ roomId = "" ∨ targetUserId = "" then
    (st, [Emit.errorMessage sid "Ação não permitida."])
  else
    match lookupk st.mentoriaRooms roomId with
    | none => (st, [Emit.errorMessage sid "Solicitação não encontrada ou você não é o mentor."])
    | some room =>
      if sameUser room.mentorId sock.userId = false then
        (st, [Emit.errorMessage sid "Solicitação não encontrada ou você não é o mentor."])
      else
        match lookupk room.pendingRequests targetUserId with
        | none =>
          (st, [Emit.errorMessage sid "Solicitação não encontrada ou você não é o mentor."])
        | some pr =>
          let room' :=
            { room with pendingRequests := delk room.pendingRequests targetUserId }
          ({ st with mentoriaRooms := setk st.mentoriaRooms roomId room' },
           [Emit.accessStatus pr.socketId "denied"])

/-- `removeUserFromMentoriaRoom`: the source's `room.mentorId = null`
cleanup line is commented out, so `mentorId` is deliberately left
untouched even when the mentor leaves. -/
def removeUserFromMentoriaRoom (st : MState) (sid roomId : String) :
    MState × List Emit :=
  match lookupk st.mentoriaRooms roomId with
  | none => (st, [])
  | some room =>
    let sock := getSock st sid
    match sock.userId with
    | none => (st, [])
    | some uid =>
      match lookupk room.participants uid with
      | none => (st, [])
      | some _ =>
        let participants' := delk room.participants uid
        let room' := { room with participants := participants' }
        let sockets' :=
          if sameUser sock.currentRoomId (some roomId) then
            setk st.sockets sid { sock with currentRoomId := none }
          else st.sockets
        ({ st with
            mentoriaRooms := setk st.mentoriaRooms roomId room'
            sockets := sockets' },
         [Emit.participantsUpdate roomId (joinedDetails participants'),
          Emit.accessStatus sid "not_joined"])

def mentoria_leave_room (st : MState) (sid roomId : String) : MState × List Emit :=
  let sock := getSock st sid
  if sock.userId = none ∨ roomId = "" then (st, [])
  else removeUserFromMentoriaRoom st sid roomId

/-- The `disconnect` handler: room cleanup, then directory removal, then a
presence broadcast; finally socket.io drops the connection from its
registry. -/
def disconnect_m (st : MState) (sid : String) : MState × List Emit :=
  let sock := getSock st sid
  let step :=
    match sock.userId with
    | none => (st, ([] : List Emit))
    | some uid =>
      let found :=
        st.mentoriaRooms.find? (fun (p : String × MRoom) => (lookupk p.2.participants uid).isSome)
      let step2 :=
        match found with
        | some p => removeUserFromMentoriaRoom st sid p.1
        | none => (st, ([] : List Emit))
      let st3 := { step2.1 with onlineUsers := delk step2.1.onlineUsers uid }
      (st3, step2.2 ++ [Emit.presenceUpdate (presenceSnapshot st3.onlineUsers)])
  ({ step.1 with sockets := delk step.1.sockets sid }, step.2)

def webrtc_offer (st : MState) (sid targetUserId sdp roomId : String) :
    MState × List Emit :=
  let sock := getSock st sid
  if sock.userId = none ∨ targetUserId = "" ∨ sdp = "" then (st, [])
  else
    match lookupk st.onlineUsers targetUserId with
    | none => (st, [])
    | some o => (st, [Emit.webrtcOffer o.socketId sock.userId sdp roomId])

def webrtc_answer (st : MState) (sid targetUserId sdp roomId : String) :
    MState × List Emit :=
  let sock := getSock st sid
  if sock.userId = none ∨ targetUserId = "" ∨ sdp = "" then (st, [])
  else
    match lookupk st.onlineUsers targetUserId with
    | none => (st, [])
    | some o => (st, [Emit.webrtcAnswer o.socketId sock.userId sdp roomId])

def webrtc_ice_candidate (st : MState) (sid targetUserId candidate roomId : String) :
    MState × List Emit :=
  let sock := getSock st sid
  if sock.userId = none ∨ targetUserId = "" ∨ candidate = "" then (st, [])
  else
    match lookupk st.onlineUsers targetUserId with
    | none => (st, [])
    | some o => (st, [Emit.webrtcIceCandidate o.socketId sock.userId candidate roomId])

end Mentoria

namespace Server

structure SOnlineUser where
  socketId : String
  displayName : String
  currentRoomId : Option String
deriving DecidableEq

/-- A room of the open-join variant: `participants` maps user id to socket
id; the registry key doubles as the `id` field. -/
structure SRoom where
  name : String
  ownerId : String
  participants : List (String × String)
deriving DecidableEq

structure SSock where
  userId : Option String
  currentRoomId : Option String
deriving DecidableEq

structure SState where
  onlineUsers : List (String × SOnlineUser)
  rooms : List (String × SRoom)
  sockets : List (String × SSock)
deriving DecidableEq

def getSSock (st : SState) (sid : String) : SSock :=
  (lookupk st.sockets sid).getD { userId := none, currentRoomId := none }

def leaveRoom (st : SState) (sid roomId : String) : SState × List Emit :=
  match lookupk st.rooms roomId with
  | none => (st, [])
  | some room =>
    let sock := getSSock st sid
    match sock.userId with
    | none => (st, [])
    | some uid =>
      match lookupk st.onlineUsers uid with
      | none => (st, [])
      | some ou =>
        match lookupk room.participants uid with
        | none => (st, [])
        | some _ =>
          let participants' := delk room.participants uid
          let rooms1 := setk st.rooms roomId { room with participants := participants' }
          let onlineUsers' := setk st.onlineUsers uid { ou with currentRoomId := none }
          let sockets' := setk st.sockets sid { sock with currentRoomId := none }
          let rooms2 := if participants' = [] then delk rooms1 roomId else rooms1
          ({ onlineUsers := onlineUsers', rooms := rooms2, sockets := sockets' },
           [Emit.leftRoomSuccessfully sid roomId,
            Emit.participantLeft roomId uid (some ou.displayName)])

def getRoomParticipantDetails (st : SState) (roomId : String) :
    List (String × String × String) :=
  match lookupk st.rooms roomId with
  | none => []
  | some room =>
    room.participants.map (fun p =>
      (p.1,
       ((lookupk st.onlineUsers p.1).map (fun o => o.displayName)).getD "",
       ((lookupk st.onlineUsers p.1).map (fun o => o.socketId)).getD ""))

/-- `joinRoom` of `server.js`: the capacity check precedes leaving the
previous room, and the previous room is left (with full `leaveRoom`
effects) before the new one is entered. -/
def joinRoom (st : SState) (sid roomId : String) : SState × List Emit :=
  match lookupk st.rooms roomId with
  | none => (st, [])
  | some room0 =>
    let sock := getSSock st sid
    match sock.userId with
    | none => (st, [])
    | some uid =>
      match lookupk st.onlineUsers uid with
      | none => (st, [])
      | some _ =>
        if 20 ≤ room0.participants.length then
          (st, [Emit.errorMessage sid "A sala está cheia."])
        else
          let step :=
            match sock.currentRoomId with
            | some r0 => if r0 ≠ roomId then leaveRoom st sid r0 else (st, ([] : List Emit))
            | none => (st, ([] : List Emit))
          let st1 := step.1
          match lookupk st1.rooms roomId with
          | none => (st1, step.2)
          | some room1 =>
            let participants' := setk room1.participants uid sid
            let rooms' := setk st1.rooms roomId { room1 with participants := participants' }
            let onlineUsers' :=
              match lookupk st1.onlineUsers uid with
              | some ou => setk st1.onlineUsers uid { ou with currentRoomId := some roomId }
              | none => st1.onlineUsers
            let sock1 := getSSock st1 sid
            let sockets' := setk st1.sockets sid { sock1 with currentRoomId := some roomId }
            let st2 : SState := { onlineUsers := onlineUsers', rooms := rooms', sockets := sockets' }
            (st2,
             step.2 ++
               [Emit.joinedRoomSuccessfully sid roomId room1.name (getRoomParticipantDetails st2 roomId),
                Emit.participantJoined roomId uid
                  (((lookupk st2.onlineUsers uid).map (fun o => o.displayName)).getD "") sid])

def webrtc_offer (st : SState) (sid targetUserId sdp roomId : String) :
    SState × List Emit :=
  match lookupk st.onlineUsers targetUserId with
  | none => (st, [])
  | some o => (st, [Emit.webrtcOffer o.socketId (getSSock st sid).userId sdp roomId])

def webrtc_answer (st : SState) (sid targetUserId sdp roomId : String) :
    SState × List Emit :=
  match lookupk st.onlineUsers targetUserId with
  | none => (st, [])
  | some o => (st, [Emit.webrtcAnswer o.socketId (getSSock st sid).userId sdp roomId])

def webrtc_ice_candidate (st : SState) (sid targetUserId candidate roomId : String) :
    SState × List Emit :=
  match lookupk st.onlineUsers targetUserId with
  | none => (st, [])
  | some o => (st, [Emit.webrtcIceCandidate o.socketId (getSSock st sid).userId candidate roomId])

end Server

namespace Mentoria

/-- Reachable states used below: socket `s1` registers the mentor `u_m`
(claiming the default room's authority), socket `s2` registers the ordinary
user `u_b`. -/
def stMentor : MState := (register_user (connectM initialMState "s1") "s1" "u_m" "Mentor" true).1

def stBoth : MState := (register_user (connectM stMentor "s2") "s2" "u_b" "Bob" false).1

/-- After `u_b` requests to join the default room. -/
def stPending : MState := (mentoria_request_join stBoth "s2" defaultMentoriaRoomId).1

/-- After the mentor additionally invites the already-pending `u_b`. -/
def stPendingInvited : MState :=
  (mentoria_invite_user stPending "s1" defaultMentoriaRoomId "u_b").1

end Mentoria

namespace Mentoria

/-- A state with only the ordinary user `u_b` registered, so the default
room still has no authority (`mentorId = none`). -/
def stNoMentor : MState := (register_user (connectM initialMState "s2") "s2" "u_b" "Bob" false).1

/-- States reaching a joined mentor who then leaves: the mentor requests to
join their own room, approves their own request, and leaves. -/
def stMentorPending : MState := (mentoria_request_join stMentor "s1" defaultMentoriaRoomId).1

def stMentorJoined : MState :=
  (mentoria_approve_request stMentorPending "s1" defaultMentoriaRoomId "u_m").1

def stMentorLeft : MState := (mentoria_leave_room stMentorJoined "s1" defaultMentoriaRoomId).1

/-- Helper: `removeUserFromMentoriaRoom` never changes any room's
`mentorId` (the clearing statement is commented out in the source). -/
theorem removeUser_mentorId_eq (st : MState) (sid roomId r : String) :
    (lookupk (removeUserFromMentoriaRoom st sid roomId).1.mentoriaRooms r).map MRoom.mentorId
      = (lookupk st.mentoriaRooms r).map MRoom.mentorId := by
  unfold removeUserFromMentoriaRoom
  cases hroom : lookupk st.mentoriaRooms roomId with
  | none => simp [hroom]
  | some room =>
    cases huid : (getSock st sid).userId with
    | none => simp [hroom, huid]
    | some uid =>
      cases hmem : lookupk room.participants uid with
      | none => simp [hroom, huid, hmem]
      | some q =>
        simp only [hroom, huid, hmem]
        by_cases hr : r = roomId
        · subst hr
          simp [lookupk_setk_self, hroom]
        · simp [lookupk_setk_ne _ _ _ _ hr]

end Mentoria

/-- Claim C1 (code bug): the disjointness invariant fails on a reachable
state.  After the trace connect s1; register u_m (mentor); connect s2;
register u_b; u_b requests to join the default room; the mentor invites
u_b — the user u_b is simultaneously in the room's pending-request set and
its invitation set, because `mentoria_request_join` only rejects users in
`participants` and `mentoria_invite_user` performs no membership check at
all. -/
theorem pending_and_invited_overlap_reachable :
    (lookupk Mentoria.stPendingInvited.mentoriaRooms Mentoria.defaultMentoriaRoomId).map
      (fun r => ((lookupk r.pendingRequests "u_b").isSome, (lookupk r.invitedUsers "u_b").isSome))
      = some (true, true) := by decide

/-- Claim C2 (counterexample): with no authority registered for the default
room (`mentorId = none`), a registered absent user's `requestJoin` does not
admit the user; it leaves them out of `participants` and places them in
`pendingRequests`. -/
theorem requestJoin_no_authority_not_admitted :
    (lookupk (Mentoria.mentoria_request_join Mentoria.stNoMentor "s2"
        Mentoria.defaultMentoriaRoomId).1.mentoriaRooms Mentoria.defaultMentoriaRoomId).map
      (fun r => (r.mentorId, (lookupk r.participants "u_b").isSome,
                 (lookupk r.pendingRequests "u_b").isSome))
      = some (none, false, true) := by decide

/-- Claim C2 (amended): for a registered user absent from an existing room
with no authority, `requestJoin` places the user in the pending-request set
(reporting status "pending_approval") and does not admit them; the absence
of an authority only suppresses the notification emit. -/
theorem requestJoin_no_authority_pends (st : Mentoria.MState) (sid roomId uid : String)
    (im : Bool) (cr : Option String) (ou : Mentoria.OnlineUser) (room : Mentoria.MRoom)
    (hsock : Mentoria.getSock st sid = { userId := some uid, isMentor := im, currentRoomId := cr })
    (hrid : roomId ≠ "")
    (hou : lookupk st.onlineUsers uid = some ou)
    (hroom : lookupk st.mentoriaRooms roomId = some room)
    (hnoauth : room.mentorId = none)
    (habsent : lookupk room.participants uid = none) :
    Mentoria.mentoria_request_join st sid roomId =
      ({ st with
          mentoriaRooms := setk st.mentoriaRooms roomId
            { room with
                pendingRequests :=
                  setk room.pendingRequests uid { socketId := sid, displayName := ou.displayName } } },
       [Emit.accessStatus sid "pending_approval"]) := by
  unfold Mentoria.mentoria_request_join
  simp [hsock, hrid, hou, hroom, hnoauth, habsent]

/-- Witness for the amended C2 theorem at the concrete state `stNoMentor`. -/
theorem requestJoin_no_authority_pends_witness :
    Mentoria.getSock Mentoria.stNoMentor "s2"
        = { userId := some "u_b", isMentor := false, currentRoomId := none } ∧
    Mentoria.mentoria_request_join Mentoria.stNoMentor "s2" Mentoria.defaultMentoriaRoomId =
      ({ Mentoria.stNoMentor with
          mentoriaRooms := setk Mentoria.stNoMentor.mentoriaRooms Mentoria.defaultMentoriaRoomId
            { name := "Sala de Mentoria Principal", mentorId := none, participants := [],
              pendingRequests := [("u_b", { socketId := "s2", displayName := "Bob" })],
              invitedUsers := [] } },
       [Emit.accessStatus "s2" "pending_approval"]) :=
  ⟨by decide,
   requestJoin_no_authority_pends Mentoria.stNoMentor "s2" Mentoria.defaultMentoriaRoomId "u_b"
     false none { socketId := "s2", displayName := "Bob", isMentor := false }
     { name := "Sala de Mentoria Principal", mentorId := none, participants := [],
       pendingRequests := [], invitedUsers := [] }
     (by decide) (by decide) (by decide) (by decide) (by decide) (by decide)⟩

/-- Claim C3 (counterexample): the mentor `u_m` of the default room joins it
and then leaves; afterwards the room's `mentorId` is still `some "u_m"`
even though `u_m` is no longer a participant — the authority field is not
cleared (the clearing line is commented out in the source). -/
theorem authority_leave_keeps_mentorId :
    (lookupk Mentoria.stMentorLeft.mentoriaRooms Mentoria.defaultMentoriaRoomId).map
      (fun r => (r.mentorId, (lookupk r.participants "u_m").isSome))
      = some (some "u_m", false) := by decide

/-- Claim C3 (amended): leaving (directly, via the leave event, or via
disconnect) never modifies any room's `mentorId`; the authority field is
left as-is, so it may keep referring to a departed or unregistered user. -/
theorem leave_and_disconnect_preserve_mentorId (st : Mentoria.MState) (sid roomId r : String) :
    ((lookupk (Mentoria.removeUserFromMentoriaRoom st sid roomId).1.mentoriaRooms r).map
        Mentoria.MRoom.mentorId
      = (lookupk st.mentoriaRooms r).map Mentoria.MRoom.mentorId) ∧
    ((lookupk (Mentoria.mentoria_leave_room st sid roomId).1.mentoriaRooms r).map
        Mentoria.MRoom.mentorId
      = (lookupk st.mentoriaRooms r).map Mentoria.MRoom.mentorId) ∧
    ((lookupk (Mentoria.disconnect_m st sid).1.mentoriaRooms r).map Mentoria.MRoom.mentorId
      = (lookupk st.mentoriaRooms r).map Mentoria.MRoom.mentorId) := by
  refine ⟨Mentoria.removeUser_mentorId_eq st sid roomId r, ?_, ?_⟩
  · unfold Mentoria.mentoria_leave_room
    by_cases h : (Mentoria.getSock st sid).userId = none ∨ roomId = ""
    · simp [h]
    · simp [h, Mentoria.removeUser_mentorId_eq st sid roomId r]
  · unfold Mentoria.disconnect_m
    cases huid : (Mentoria.getSock st sid).userId with
    | none => simp [huid]
    | some uid =>
      cases hfound : st.mentoriaRooms.find?
          (fun (p : String × Mentoria.MRoom) => (lookupk p.2.participants uid).isSome) with
      | none => simp [huid, hfound]
      | some p => simp [huid, hfound, Mentoria.removeUser_mentorId_eq st sid p.1 r]

/-- Claim C4 (code bug): a user already in the pending set is not rejected
by `requestJoin`.  At `stPending` (u_b pending in the default room), a
second `requestJoin` by u_b emits the success status and a fresh
notification to the mentor instead of the "already a member or pending"
error. -/
theorem rerequest_while_pending_not_rejected :
    (Mentoria.mentoria_request_join Mentoria.stPending "s2" Mentoria.defaultMentoriaRoomId).2
      = [Emit.accessStatus "s2" "pending_approval",
         Emit.joinRequestToMentor "s1" "u_b" "Bob" Mentoria.defaultMentoriaRoomId] := by decide

/-- Claim C6: `admit` (addUserToMentoriaRoom) is idempotent — for a user
whose participant record already has status "joined", a further call
returns the state unchanged and emits nothing (in particular no second
participant-update broadcast and no duplicate membership entry). -/
theorem admit_already_joined_noop (st : Mentoria.MState) (sid roomId dn js uid : String)
    (im : Bool) (cr : Option String) (room : Mentoria.MRoom) (p : Mentoria.Participant)
    (hsock : Mentoria.getSock st sid = { userId := some uid, isMentor := im, currentRoomId := cr })
    (hroom : lookupk st.mentoriaRooms roomId = some room)
    (hp : lookupk room.participants uid = some p)
    (hstatus : p.status = "joined") :
    Mentoria.addUserToMentoriaRoom st sid roomId dn js = (st, []) := by
  unfold Mentoria.addUserToMentoriaRoom
  simp [hroom, hsock, hp, hstatus]

/-- Witness for the C6 theorem at the reachable state `stMentorJoined`. -/
theorem admit_already_joined_noop_witness :
    lookupk Mentoria.stMentorJoined.mentoriaRooms Mentoria.defaultMentoriaRoomId
      = some { name := "Sala de Mentoria Principal", mentorId := some "u_m",
               participants := [("u_m", { socketId := "s1", displayName := "Mentor",
                                          status := "joined" })],
               pendingRequests := [], invitedUsers := [] } ∧
    Mentoria.addUserToMentoriaRoom Mentoria.stMentorJoined "s1" Mentoria.defaultMentoriaRoomId
      "Mentor" "approved" = (Mentoria.stMentorJoined, []) :=
  ⟨by decide,
   admit_already_joined_noop Mentoria.stMentorJoined "s1" Mentoria.defaultMentoriaRoomId
     "Mentor" "approved" "u_m" true (some Mentoria.defaultMentoriaRoomId)
     { name := "Sala de Mentoria Principal", mentorId := some "u_m",
       participants := [("u_m", { socketId := "s1", displayName := "Mentor", status := "joined" })],
       pendingRequests := [], invitedUsers := [] }
     { socketId := "s1", displayName := "Mentor", status := "joined" }
     (by decide) (by decide) (by decide) (by decide)⟩

/-- Claim C7: `approve` when the pending record has already been consumed
(it is absent from `pendingRequests`) fails with the not-found error and
leaves the entire state — in particular the membership set — unchanged. -/
theorem approve_consumed_request_fails (st : Mentoria.MState) (sid roomId targetUserId : String)
    (room : Mentoria.MRoom)
    (hm : (Mentoria.getSock st sid).isMentor = true)
    (hrid : roomId ≠ "") (htgt : targetUserId ≠ "")
    (hroom : lookupk st.mentoriaRooms roomId = some room)
    (hpend : lookupk room.pendingRequests targetUserId = none) :
    Mentoria.mentoria_approve_request st sid roomId targetUserId =
      (st, [Emit.errorMessage sid "Solicitação não encontrada ou você não é o mentor."]) := by
  unfold Mentoria.mentoria_approve_request
  cases hsu : sameUser room.mentorId (Mentoria.getSock st sid).userId with
  | false => simp [hm, hrid, htgt, hroom, hsu]
  | true => simp [hm, hrid, htgt, hroom, hsu, hpend]

/-- Witness for the C7 theorem: at `stMentorJoined` there is no pending
request for `u_x`, so the mentor's approve of `u_x` fails unchanged. -/
theorem approve_consumed_request_fails_witness :
    (Mentoria.getSock Mentoria.stMentorJoined "s1").isMentor = true ∧
    Mentoria.mentoria_approve_request Mentoria.stMentorJoined "s1"
        Mentoria.defaultMentoriaRoomId "u_x" =
      (Mentoria.stMentorJoined,
       [Emit.errorMessage "s1" "Solicitação não encontrada ou você não é o mentor."]) :=
  ⟨by decide,
   approve_consumed_request_fails Mentoria.stMentorJoined "s1" Mentoria.defaultMentoriaRoomId
     "u_x"
     { name := "Sala de Mentoria Principal", mentorId := some "u_m",
       participants := [("u_m", { socketId := "s1", displayName := "Mentor", status := "joined" })],
       pendingRequests := [], invitedUsers := [] }
     (by decide) (by decide) (by decide) (by decide) (by decide)⟩

/-- Claim C10: `approve` with all validity checks passing but the pending
user's recorded socket no longer connected deletes the pending record,
adds nobody to the membership set, and emits nothing — the request is
consumed with no admission. -/
theorem approve_disconnected_target_consumes (st : Mentoria.MState)
    (sid roomId targetUserId m : String) (cr : Option String)
    (room : Mentoria.MRoom) (pr : Mentoria.PendingRequest)
    (hsock : Mentoria.getSock st sid = { userId := some m, isMentor := true, currentRoomId := cr })
    (hrid : roomId ≠ "") (htgt : targetUserId ≠ "")
    (hroom : lookupk st.mentoriaRooms roomId = some room)
    (hauth : room.mentorId = some m)
    (hpend : lookupk room.pendingRequests targetUserId = some pr)
    (hgone : lookupk st.sockets pr.socketId = none) :
    Mentoria.mentoria_approve_request st sid roomId targetUserId =
      ({ st with
          mentoriaRooms := setk st.mentoriaRooms roomId
            { room with pendingRequests := delk room.pendingRequests targetUserId } },
       []) := by
  unfold Mentoria.mentoria_approve_request
  simp [hsock, hrid, htgt, hroom, hauth, hpend, hgone, sameUser]

namespace Mentoria

/-- Reachable state for the C10 scenario: from `stPending` the requester's
socket `s2` disconnects; the pending record (with the stale socket id
`s2`) survives, because disconnect only cleans up `participants`. -/
def stPendingGone : MState := (disconnect_m stPending "s2").1

end Mentoria

/-- Witness for the C10 theorem at the reachable state `stPendingGone`. -/
theorem approve_disconnected_target_consumes_witness :
    lookupk Mentoria.stPendingGone.sockets "s2" = none ∧
    Mentoria.mentoria_approve_request Mentoria.stPendingGone "s1"
        Mentoria.defaultMentoriaRoomId "u_b" =
      ({ Mentoria.stPendingGone with
          mentoriaRooms := setk Mentoria.stPendingGone.mentoriaRooms
            Mentoria.defaultMentoriaRoomId
            { name := "Sala de Mentoria Principal", mentorId := some "u_m",
              participants := [], pendingRequests := [], invitedUsers := [] } },
       []) :=
  ⟨by decide,
   approve_disconnected_target_consumes Mentoria.stPendingGone "s1"
     Mentoria.defaultMentoriaRoomId "u_b" "u_m" none
     { name := "Sala de Mentoria Principal", mentorId := some "u_m",
       participants := [],
       pendingRequests := [("u_b", { socketId := "s2", displayName := "Bob" })],
       invitedUsers := [] }
     { socketId := "s2", displayName := "Bob" }
     (by decide) (by decide) (by decide) (by decide) (by decide) (by decide) (by decide)⟩

/-- Helper: `removeUserFromMentoriaRoom` never adds or removes a room from
the registry (no room-destruction path exists in the mentoria variant). -/
theorem removeUser_keeps_rooms_isSome (mst : Mentoria.MState) (msid mrid r : String) :
    (lookupk (Mentoria.removeUserFromMentoriaRoom mst msid mrid).1.mentoriaRooms r).isSome
      = (lookupk mst.mentoriaRooms r).isSome := by
  unfold Mentoria.removeUserFromMentoriaRoom
  cases hroom : lookupk mst.mentoriaRooms mrid with
  | none => simp [hroom]
  | some room =>
    cases huid : (Mentoria.getSock mst msid).userId with
    | none => simp [hroom, huid]
    | some uid =>
      cases hmem : lookupk room.participants uid with
      | none => simp [hroom, huid, hmem]
      | some q =>
        simp only [hroom, huid, hmem]
        exact lookupk_setk_isSome mst.mentoriaRooms mrid _ (by simp [hroom]) r

/-- Claim C5: a `leave` (open-join variant `leaveRoom`) that removes the
last remaining member deletes the ad-hoc room from the registry, while the
mentoria variant's `removeUserFromMentoriaRoom` never deletes any room, so
the pre-provisioned primary room survives emptying. -/
theorem last_leave_destroys_adhoc_room (st : Server.SState) (sid roomId uid s0 : String)
    (cr : Option String) (room : Server.SRoom) (ou : Server.SOnlineUser)
    (hsock : lookupk st.sockets sid = some { userId := some uid, currentRoomId := cr })
    (hou : lookupk st.onlineUsers uid = some ou)
    (hroom : lookupk st.rooms roomId = some room)
    (hmem : lookupk room.participants uid = some s0)
    (hlast : delk room.participants uid = []) :
    lookupk (Server.leaveRoom st sid roomId).1.rooms roomId = none ∧
    ∀ (mst : Mentoria.MState) (msid mrid r : String),
      (lookupk (Mentoria.removeUserFromMentoriaRoom mst msid mrid).1.mentoriaRooms r).isSome
        = (lookupk mst.mentoriaRooms r).isSome := by
  constructor
  · unfold Server.leaveRoom
    simp [hroom, Server.getSSock, hsock, hou, hmem, hlast, lookupk_delk_self]
  · exact removeUser_keeps_rooms_isSome

/-- Witness for the C5 theorem: `u1` is the sole member of ad-hoc room
`r1`; after leaving, `r1` is gone from the registry. -/
theorem last_leave_destroys_adhoc_room_witness :
    lookupk
      ({ onlineUsers := [("u1", { socketId := "s1", displayName := "Alice", currentRoomId := some "r1" })],
         rooms := [("r1", { name := "Room 1", ownerId := "u1", participants := [("u1", "s1")] })],
         sockets := [("s1", { userId := some "u1", currentRoomId := some "r1" })] } : Server.SState).rooms
      "r1" = some { name := "Room 1", ownerId := "u1", participants := [("u1", "s1")] } ∧
    (lookupk (Server.leaveRoom
      { onlineUsers := [("u1", { socketId := "s1", displayName := "Alice", currentRoomId := some "r1" })],
        rooms := [("r1", { name := "Room 1", ownerId := "u1", participants := [("u1", "s1")] })],
        sockets := [("s1", { userId := some "u1", currentRoomId := some "r1" })] } "s1" "r1").1.rooms "r1" = none ∧
     ∀ (mst : Mentoria.MState) (msid mrid r : String),
       (lookupk (Mentoria.removeUserFromMentoriaRoom mst msid mrid).1.mentoriaRooms r).isSome
         = (lookupk mst.mentoriaRooms r).isSome) :=
  ⟨by decide,
   last_leave_destroys_adhoc_room
     { onlineUsers := [("u1", { socketId := "s1", displayName := "Alice", currentRoomId := some "r1" })],
       rooms := [("r1", { name := "Room 1", ownerId := "u1", participants := [("u1", "s1")] })],
       sockets := [("s1", { userId := some "u1", currentRoomId := some "r1" })] }
     "s1" "r1" "u1" "s1" (some "r1")
     { name := "Room 1", ownerId := "u1", participants := [("u1", "s1")] }
     { socketId := "s1", displayName := "Alice", currentRoomId := some "r1" }
     (by decide) (by decide) (by decide) (by decide) (by decide)⟩

/-- Claim C8: a relay message (offer, answer or ICE candidate, in either
variant) whose target identity has no entry in `onlineUsers` is dropped:
the handler returns the state unchanged and emits nothing — no delivery,
no error to the sender. -/
theorem offline_relay_target_dropped (sst : Server.SState) (mst : Mentoria.MState)
    (sid tgt sdp cand roomId : String)
    (hs : lookupk sst.onlineUsers tgt = none)
    (hm : lookupk mst.onlineUsers tgt = none) :
    Server.webrtc_offer sst sid tgt sdp roomId = (sst, []) ∧
    Server.webrtc_answer sst sid tgt sdp roomId = (sst, []) ∧
    Server.webrtc_ice_candidate sst sid tgt cand roomId = (sst, []) ∧
    Mentoria.webrtc_offer mst sid tgt sdp roomId = (mst, []) ∧
    Mentoria.webrtc_answer mst sid tgt sdp roomId = (mst, []) ∧
    Mentoria.webrtc_ice_candidate mst sid tgt cand roomId = (mst, []) := by
  refine ⟨?_, ?_, ?_, ?_, ?_, ?_⟩
  · unfold Server.webrtc_offer
    simp [hs]
  · unfold Server.webrtc_answer
    simp [hs]
  · unfold Server.webrtc_ice_candidate
    simp [hs]
  · unfold Mentoria.webrtc_offer
    by_cases h : (Mentoria.getSock mst sid).userId = none ∨ tgt = "" ∨ sdp = ""
    · simp [h]
    · simp [h, hm]
  · unfold Mentoria.webrtc_answer
    by_cases h : (Mentoria.getSock mst sid).userId = none ∨ tgt = "" ∨ sdp = ""
    · simp [h]
    · simp [h, hm]
  · unfold Mentoria.webrtc_ice_candidate
    by_cases h : (Mentoria.getSock mst sid).userId = none ∨ tgt = "" ∨ cand = ""
    · simp [h]
    · simp [h, hm]

/-- Witness for the C8 theorem: at `stMentor` (only `u_m` online) a relay
to the offline `u_y` is a no-op in every handler. -/
theorem offline_relay_target_dropped_witness :
    lookupk Mentoria.stMentor.onlineUsers "u_y" = none ∧
    Mentoria.webrtc_offer Mentoria.stMentor "s1" "u_y" "sdp-blob" "room-x"
      = (Mentoria.stMentor, []) :=
  ⟨by decide,
   (offline_relay_target_dropped { onlineUsers := [], rooms := [], sockets := [] }
     Mentoria.stMentor "s1" "u_y" "sdp-blob" "cand-blob" "room-x"
     (by decide) (by decide)).2.2.2.1⟩

/-- Claim C9: in the open-join variant, a registered user who is currently
(and only) in room `r1` and joins a different room `r2`: if `r2` is below
the 20-participant cap, the user ends up in `r2`'s participants, appears
in no other room's participants (the previous room was left first, and is
deleted if that made it empty, otherwise survives without the user); if
`r2` is at capacity, the join is rejected with the room-full error and the
state — including the user's membership in `r1` — is unchanged. -/
theorem joinRoom_switch (st : Server.SState)
    (sid uid r1 r2 psid : String) (ou : Server.SOnlineUser) (room1 room2 : Server.SRoom)
    (hsock : lookupk st.sockets sid = some { userId := some uid, currentRoomId := some r1 })
    (hou : lookupk st.onlineUsers uid = some ou)
    (hr1 : lookupk st.rooms r1 = some room1)
    (hmem1 : lookupk room1.participants uid = some psid)
    (honly : ∀ p ∈ st.rooms, p.1 ≠ r1 → lookupk p.2.participants uid = none)
    (hr2 : lookupk st.rooms r2 = some room2)
    (hne : r1 ≠ r2) :
    (room2.participants.length < 20 →
      (lookupk (Server.joinRoom st sid r2).1.rooms r2
          = some { room2 with participants := setk room2.participants uid sid }) ∧
      (∀ r room', lookupk (Server.joinRoom st sid r2).1.rooms r = some room' →
          (lookupk room'.participants uid).isSome → r = r2) ∧
      (delk room1.participants uid = [] →
          lookupk (Server.joinRoom st sid r2).1.rooms r1 = none) ∧
      (delk room1.participants uid ≠ [] →
          lookupk (Server.joinRoom st sid r2).1.rooms r1
            = some { room1 with participants := delk room1.participants uid })) ∧
    (20 ≤ room2.participants.length →
      Server.joinRoom st sid r2 = (st, [Emit.errorMessage sid "A sala está cheia."])) := by
  have hgs : Server.getSSock st sid = { userId := some uid, currentRoomId := some r1 } := by
    unfold Server.getSSock
    rw [hsock]
    rfl
  constructor
  · intro hcap
    have hcap' : ¬ (20 ≤ room2.participants.length) := not_le.mpr hcap
    have hL : Server.leaveRoom st sid r1 =
        ({ onlineUsers := setk st.onlineUsers uid { ou with currentRoomId := none },
           rooms :=
             (if delk room1.participants uid = [] then
                delk (setk st.rooms r1 { room1 with participants := delk room1.participants uid }) r1
              else
                setk st.rooms r1 { room1 with participants := delk room1.participants uid }),
           sockets := setk st.sockets sid { userId := some uid, currentRoomId := none } },
         [Emit.leftRoomSuccessfully sid r1, Emit.participantLeft r1 uid (some ou.displayName)]) := by
      unfold Server.leaveRoom
      simp [hr1, hgs, hou, hmem1]
    have hLrooms : ∀ r, r ≠ r1 →
        lookupk (Server.leaveRoom st sid r1).1.rooms r = lookupk st.rooms r := by
      intro r hr
      rw [hL]
      by_cases hempty : delk room1.participants uid = []
      · rw [if_pos hempty, lookupk_delk_ne _ r1 r hr, lookupk_setk_ne _ r1 r _ hr]
      · rw [if_neg hempty, lookupk_setk_ne _ r1 r _ hr]
    have hre : lookupk (Server.leaveRoom st sid r1).1.rooms r2 = some room2 := by
      rw [hLrooms r2 (fun e => hne e.symm)]
      exact hr2
    have hjrooms : (Server.joinRoom st sid r2).1.rooms
        = setk (Server.leaveRoom st sid r1).1.rooms r2
            { room2 with participants := setk room2.participants uid sid } := by
      unfold Server.joinRoom
      simp [hr2, hgs, hou, hcap', hne, hre]
    refine ⟨?_, ?_, ?_, ?_⟩
    · rw [hjrooms]
      exact lookupk_setk_self _ _ _
    · intro r room' hlook hmem'
      by_cases hrr2 : r = r2
      · exact hrr2
      · exfalso
        rw [hjrooms, lookupk_setk_ne _ r2 r _ hrr2] at hlook
        by_cases hrr1 : r = r1
        · subst hrr1
          rw [hL] at hlook
          by_cases hempty : delk room1.participants uid = []
          · rw [if_pos hempty, lookupk_delk_self] at hlook
            exact Option.noConfusion hlook
          · rw [if_neg hempty, lookupk_setk_self] at hlook
            cases hlook
            simp [lookupk_delk_self] at hmem'
        · rw [hLrooms r hrr1] at hlook
          have hnone := honly (r, room') (lookupk_mem _ _ _ hlook) hrr1
          rw [hnone] at hmem'
          simp at hmem'
    · intro hempty
      rw [hjrooms, lookupk_setk_ne _ r2 r1 _ hne, hL]
      rw [if_pos hempty]
      exact lookupk_delk_self _ _
    · intro hnempty
      rw [hjrooms, lookupk_setk_ne _ r2 r1 _ hne, hL]
      rw [if_neg hnempty]
      exact lookupk_setk_self _ _ _
  · intro hcap
    unfold Server.joinRoom
    simp [hr2, hgs, hou, hcap]

namespace Server

/-- Concrete state for the C9 witness: `u1` (socket `s1`) is the sole
member of room `r1`; room `r2` is empty. -/
def sSwitch : SState :=
  { onlineUsers := [("u1", { socketId := "s1", displayName := "Alice", currentRoomId := some "r1" })]
    rooms := [("r1", { name := "Room 1", ownerId := "u1", participants := [("u1", "s1")] }),
              ("r2", { name := "Room 2", ownerId := "u2", participants := [] })]
    sockets := [("s1", { userId := some "u1", currentRoomId := some "r1" })] }

end Server

/-- Witness for the C9 theorem: `u1` switches from `r1` to the empty room
`r2`; afterwards `u1` is in `r2` and the emptied `r1` has been deleted. -/
theorem joinRoom_switch_witness :
    lookupk Server.sSwitch.sockets "s1" = some { userId := some "u1", currentRoomId := some "r1" } ∧
    lookupk (Server.joinRoom Server.sSwitch "s1" "r2").1.rooms "r2"
      = some { name := "Room 2", ownerId := "u2", participants := [("u1", "s1")] } ∧
    lookupk (Server.joinRoom Server.sSwitch "s1" "r2").1.rooms "r1" = none :=
  have h := joinRoom_switch Server.sSwitch "s1" "u1" "r1" "r2" "s1"
      { socketId := "s1", displayName := "Alice", currentRoomId := some "r1" }
      { name := "Room 1", ownerId := "u1", participants := [("u1", "s1")] }
      { name := "Room 2", ownerId := "u2", participants := [] }
      (by decide) (by decide) (by decide) (by decide) (by decide) (by decide) (by decide)
  ⟨by decide, (h.1 (by decide)).1, (h.1 (by decide)).2.2.1 (by decide)⟩
